import Mathlib

/-!
Verification of the Android DNS-SD bridge (`src/platform/android/DnssdImpl.cpp`).

C strings are modelled as `List Char`; byte buffers as `List Nat`; machine
integers (`jint`, `jlong`) as `Int`.  Fallible operations return `Except` or
are modelled with explicit error-code results.  Fixed-size buffer maxima that
live in headers outside this file (`Operational::kInstanceNameMaxLength`,
`kDnssdTypeAndProtocolMaxSize`, the size of `DnssdService::mType`) are kept
abstract as parameters, since the claims do not depend on their values.
-/

namespace DnssdImpl

/-- The `DnssdServiceProtocol` enum from `lib/dnssd/platform/Dnssd.h`. -/
inductive DnssdServiceProtocol
  | tcp
  | udp
  | unknown
deriving DecidableEq

/-- The CHIP error codes that appear in `DnssdImpl.cpp`.
`JNI_EXCEPTION_THROWN` stands for `CHIP_JNI_ERROR_EXCEPTION_THROWN` (the
"backend fault" status) and `JNI_ERROR_NO_ENV` for `CHIP_JNI_ERROR_NO_ENV`. -/
inductive CHIP_ERROR
  | NO_ERROR
  | INVALID_ARGUMENT
  | INCORRECT_STATE
  | NO_MEMORY
  | UNKNOWN_RESOURCE_ID
  | JNI_EXCEPTION_THROWN
  | JNI_ERROR_NO_ENV
  | NOT_IMPLEMENTED
deriving DecidableEq

deriving instance DecidableEq for Except

/-- Boolean test that `p` is a leading segment of `s` (C `strncmp(s, p, |p|) == 0`). -/
def isPrefixB : List Char → List Char → Bool
  | [], _ => true
  | _ :: _, [] => false
  | a :: p, b :: s => a == b && isPrefixB p s

/-- C `strstr(s, pat) != NULL` for a non-empty `pat`: `pat` occurs somewhere in `s`. -/
def strstrB (pat : List Char) : List Char → Bool
  | [] => isPrefixB pat []
  | c :: t => isPrefixB pat (c :: t) || strstrB pat t

/-- C++ `std::string::find(pat)` for a non-empty `pat`: index of the first
occurrence of `pat` in `s`, or `none` (`npos`). -/
def strFind (pat : List Char) : List Char → Option Nat
  | [] => none
  | c :: t => if isPrefixB pat (c :: t) then some 0 else (strFind pat t).map (· + 1)

/-- C `strrchr(s, c)`: index of the last occurrence of `c` in `s`. -/
def strrchrIdx (c : Char) : List Char → Option Nat
  | [] => none
  | x :: t =>
    match strrchrIdx c t with
    | some i => some (i + 1)
    | none => if x = c then some 0 else none

/-- Constant `kProtocolTcp` = `"._tcp"` (DnssdImpl.cpp line 57). -/
def kProtocolTcp : List Char := ['.', '_', 't', 'c', 'p']

/-- Constant `kProtocolUdp` = `"._udp"` (DnssdImpl.cpp line 58). -/
def kProtocolUdp : List Char := ['.', '_', 'u', 'd', 'p']

/-- Function `GetFullType(type, protocol)` (lines 158-164): appends `"._udp"` when the
protocol is udp and `"._tcp"` otherwise. -/
def GetFullType (type : List Char) (protocol : DnssdServiceProtocol) : List Char :=
  type ++ (if protocol = DnssdServiceProtocol.udp then kProtocolUdp else kProtocolTcp)

/-- The `"._sub."` delimiter used by `GetFullTypeWithSubTypes` (line 170). -/
def subtypeDelimiter : List Char := ['.', '_', 's', 'u', 'b', '.']

/-- Function `GetFullTypeWithSubTypes(type, protocol)` (lines 166-178): builds the full
type, then, if `"._sub."` occurs in it, replaces it by
`substr(position + 6) ++ "," ++ substr(0, position)`. -/
def GetFullTypeWithSubTypes (type : List Char) (protocol : DnssdServiceProtocol) : List Char :=
  let fullType := GetFullType type protocol
  match strFind subtypeDelimiter fullType with
  | some position =>
      fullType.drop (position + subtypeDelimiter.length) ++ [','] ++ fullType.take position
  | none => fullType

/-- Result of a successful `extractProtocol`: the copied-out service name and
the detected protocol. -/
structure ExtractOk where
  serviceName : List Char
  protocol : DnssdServiceProtocol
deriving DecidableEq

/-- Function `extractProtocol<N>(serviceType, outServiceName, outProtocol)`
(lines 243-273).  `N` is the size of the `outServiceName` buffer.
Splits at the last `.` (`strrchr`); requires the part before it plus the null
terminator to fit in `N`; then tests `strstr(dotPos, "._tcp")` and
`strstr(dotPos, "._udp")` in that order. -/
def extractProtocol (N : Nat) (serviceType : List Char) : Except CHIP_ERROR ExtractOk :=
  match strrchrIdx '.' serviceType with
  | none => Except.error CHIP_ERROR.INVALID_ARGUMENT
  | some dotIdx =>
    if dotIdx + 1 ≤ N then
      let outServiceName := serviceType.take dotIdx
      let dotPos := serviceType.drop dotIdx
      if strstrB kProtocolTcp dotPos then
        Except.ok ⟨outServiceName, DnssdServiceProtocol.tcp⟩
      else if strstrB kProtocolUdp dotPos then
        Except.ok ⟨outServiceName, DnssdServiceProtocol.udp⟩
      else
        Except.error CHIP_ERROR.INVALID_ARGUMENT
    else
      Except.error CHIP_ERROR.INVALID_ARGUMENT

/-- Whether the JNI globals of lines 42-52 are bound: each `JniGlobalReference`
has a valid object and each `jmethodID` is non-null. -/
structure BindState where
  resolverBound : Bool
  browserBound : Bool
  mdnsCallbackBound : Bool
  resolveMethod : Bool
  browseMethod : Bool
  stopBrowseMethod : Bool
  publishMethod : Bool
  removeServicesMethod : Bool
deriving DecidableEq

/-- Observable actions of a public API call.  Each `backend*` action records
whether the process-wide stack lock was held when the backend (Java) method was
invoked: `false` when the call site is wrapped in a `DeviceLayer::StackUnlock`
scope, `true` when it is not.  `sessionCreate`/`sessionDestroy` are the
`chip::Platform::New<BrowseContext>` / `chip::Platform::Delete` calls. -/
inductive Action
  | backendBrowse (lockHeld : Bool)
  | backendStopBrowse (lockHeld : Bool)
  | backendResolve (lockHeld : Bool)
  | backendPublish (lockHeld : Bool)
  | backendRemoveServices (lockHeld : Bool)
  | sessionCreate
  | sessionDestroy
deriving DecidableEq

/-- The lock flag of a backend call-out action, `none` for session actions. -/
def backendLockHeld : Action → Option Bool
  | Action.backendBrowse h => some h
  | Action.backendStopBrowse h => some h
  | Action.backendResolve h => some h
  | Action.backendPublish h => some h
  | Action.backendRemoveServices h => some h
  | _ => none

/-- Model of `ChipDnssdBrowse` (lines 185-215), as its synchronous result code plus the
trace of backend/session actions.  The browse call at line 198 is NOT wrapped
in `DeviceLayer::StackUnlock`, so its action carries `lockHeld := true`.
`typeNull`/`cbNull` model null `type`/`callback` arguments, `envOk` the
`GetEnvForCurrentThread` result, `backendThrows` a Java exception from the
backend call, and `allocOk` the `New<BrowseContext>` allocation. -/
def ChipDnssdBrowse (st : BindState) (typeNull cbNull : Bool) (envOk backendThrows allocOk : Bool) :
    CHIP_ERROR × List Action :=
  if typeNull || cbNull then (CHIP_ERROR.INVALID_ARGUMENT, [])
  else if !(st.browserBound && st.browseMethod) then (CHIP_ERROR.INVALID_ARGUMENT, [])
  else if !st.mdnsCallbackBound then (CHIP_ERROR.INCORRECT_STATE, [])
  else if !envOk then (CHIP_ERROR.JNI_ERROR_NO_ENV, [])
  else if backendThrows then (CHIP_ERROR.JNI_EXCEPTION_THROWN, [Action.backendBrowse true])
  else if !allocOk then (CHIP_ERROR.NO_MEMORY, [Action.backendBrowse true])
  else (CHIP_ERROR.NO_ERROR, [Action.backendBrowse true, Action.sessionCreate])

/-- Model of `ChipDnssdStopBrowse` (lines 217-241).  The stop call at line 228 is NOT
wrapped in `DeviceLayer::StackUnlock` (`lockHeld := true`), and
`chip::Platform::Delete(ctx)` at line 230 runs unconditionally before the
exception check, so `sessionDestroy` appears in the trace whether or not the
backend threw. -/
def ChipDnssdStopBrowse (st : BindState) (identifierZero : Bool) (envOk backendThrows : Bool) :
    CHIP_ERROR × List Action :=
  if identifierZero then (CHIP_ERROR.INVALID_ARGUMENT, [])
  else if !(st.browserBound && st.stopBrowseMethod) then (CHIP_ERROR.INVALID_ARGUMENT, [])
  else if !envOk then (CHIP_ERROR.JNI_ERROR_NO_ENV, [])
  else ((if backendThrows then CHIP_ERROR.JNI_EXCEPTION_THROWN else CHIP_ERROR.NO_ERROR),
        [Action.backendStopBrowse true, Action.sessionDestroy])

/-- Model of `ChipDnssdResolve` (lines 275-301).  The resolve call at lines 287-290 is
wrapped in `DeviceLayer::StackUnlock` (`lockHeld := false`). -/
def ChipDnssdResolve (st : BindState) (serviceNull cbNull : Bool) (backendThrows : Bool) :
    CHIP_ERROR × List Action :=
  if serviceNull || cbNull then (CHIP_ERROR.INVALID_ARGUMENT, [])
  else if !(st.resolverBound && st.resolveMethod) then (CHIP_ERROR.INCORRECT_STATE, [])
  else if !st.mdnsCallbackBound then (CHIP_ERROR.INCORRECT_STATE, [])
  else ((if backendThrows then CHIP_ERROR.JNI_EXCEPTION_THROWN else CHIP_ERROR.NO_ERROR),
        [Action.backendResolve false])

/-- Model of `ChipDnssdPublishService` (lines 93-151).  The publish call at lines
136-140 is wrapped in `DeviceLayer::StackUnlock` (`lockHeld := false`).
`textEntryCountFits`/`subTypeCountFits` model `CanCastTo<uint32_t>` on
`mTextEntrySize`/`mSubTypeSize` (lines 97-98) and `dataSizesFit` the
per-entry `CanCastTo<uint32_t>(mDataSize)` checks inside the marshalling loop
(line 122), all of which run before the backend call. -/
def ChipDnssdPublishService (st : BindState) (serviceNull : Bool)
    (textEntryCountFits subTypeCountFits dataSizesFit backendThrows : Bool) :
    CHIP_ERROR × List Action :=
  if serviceNull then (CHIP_ERROR.INVALID_ARGUMENT, [])
  else if !(st.resolverBound && st.publishMethod) then (CHIP_ERROR.INCORRECT_STATE, [])
  else if !textEntryCountFits then (CHIP_ERROR.INVALID_ARGUMENT, [])
  else if !subTypeCountFits then (CHIP_ERROR.INVALID_ARGUMENT, [])
  else if !dataSizesFit then (CHIP_ERROR.INVALID_ARGUMENT, [])
  else ((if backendThrows then CHIP_ERROR.JNI_EXCEPTION_THROWN else CHIP_ERROR.NO_ERROR),
        [Action.backendPublish false])

/-- Model of `ChipDnssdRemoveServices` (lines 71-91).  The call at lines 77-80 is
wrapped in `DeviceLayer::StackUnlock` (`lockHeld := false`). -/
def ChipDnssdRemoveServices (st : BindState) (backendThrows : Bool) : CHIP_ERROR × List Action :=
  if !(st.resolverBound && st.removeServicesMethod) then (CHIP_ERROR.INCORRECT_STATE, [])
  else ((if backendThrows then CHIP_ERROR.JNI_EXCEPTION_THROWN else CHIP_ERROR.NO_ERROR),
        [Action.backendRemoveServices false])

/-- Fixed-size buffer maxima declared in headers outside this file:
`instanceNameMax` is `Operational::kInstanceNameMaxLength`,
`typeAndProtocolMax` is `kDnssdTypeAndProtocolMaxSize`, and `typeBufSize` is
the size of the `DnssdService::mType` array passed to `extractProtocol`.
Kept abstract: the claims hold for every value. -/
structure Limits where
  instanceNameMax : Nat
  typeAndProtocolMax : Nat
  typeBufSize : Nat
deriving DecidableEq

/-- One entry of the backend-delivered TXT map, as seen through the
`getTextEntryKeys` / `getTextEntryData` dispatcher capability: the keys in
backend-reported order, each with its data bytes or `none` (a null `byte[]`). -/
structure TxtInputEntry where
  key : List Char
  data : Option (List Nat)
deriving DecidableEq

/-- Input delivered to `HandleResolve` (line 386).  `addressNull` models a null
`address` jstring; `addressParses` the outcome of the external
`Inet::IPAddress::FromString` parser; `textEntries = none` a null TXT map. -/
structure ResolveInput where
  instanceName : List Char
  serviceType : List Char
  hostName : List Char
  addressNull : Bool
  addressParses : Bool
  port : Int
  textEntries : Option (List TxtInputEntry)
  callbackHandle : Int
deriving DecidableEq

/-- One slot of the `TextEntry` array built by `HandleResolve`:
`mKey` is the `strdup`-ed key (`none` = still the `memset` null),
`mData` the owned data copy (`none` = null, the "absent" sentinel). -/
structure MTextEntry where
  mKey : Option (List Char)
  mData : Option (List Nat)
deriving DecidableEq

/-- The `DnssdService` record built by `HandleResolve` and handed to the
callback. -/
structure ServiceRec where
  mName : List Char
  mHostName : List Char
  mType : List Char
  mProtocol : DnssdServiceProtocol
  mPort : Int
  mTextEntrySize : Nat
  mTextEntries : Option (List MTextEntry)
deriving DecidableEq

/-- Identifier of a heap allocation made while marshalling a resolve result:
the `new TextEntry[size]` list, the `strdup` of key `i`, or the
`new uint8_t[dataSize]` buffer of entry `i`. -/
inductive AllocId
  | entriesList
  | keyBuf (i : Nat)
  | dataBuf (i : Nat)
deriving DecidableEq

/-- One invocation of the resolve callback, through the `dispatch` lambda of
lines 391-397: the error code, the `DnssdService *` argument (`none` =
nullptr, the default for error dispatches) and `addr_count`. -/
structure ResolveDispatch where
  error : CHIP_ERROR
  service : Option ServiceRec
  addrCount : Nat
deriving DecidableEq

/-- What one `HandleResolve` run does: the callback invocations it performs,
the buffers it allocates, and the buffers it releases. -/
structure ResolveOutput where
  dispatches : List ResolveDispatch
  allocs : List AllocId
  frees : List AllocId
deriving DecidableEq

/-- An error dispatch: `dispatch(e)` with defaulted `service = nullptr`,
`address = nullptr` (so `addr_count = 0`), and nothing allocated or freed. -/
def errOut (e : CHIP_ERROR) : ResolveOutput := ⟨[⟨e, none, 0⟩], [], []⟩

/-- The exit section of `HandleResolve` (lines 479-491): for
`i < mTextEntrySize`, `delete[] mKey` (a no-op on the null key of a
never-reached slot) and `delete[] mData` when non-null; then
`delete[] mTextEntries` itself.  Nothing is freed when `mTextEntries` is
null. -/
def freesFor (svc : ServiceRec) : List AllocId :=
  match svc.mTextEntries with
  | none => []
  | some entries =>
    ((List.range svc.mTextEntrySize).flatMap fun i =>
      let e := entries.getD i ⟨none, none⟩
      (if e.mKey.isSome then [AllocId.keyBuf i] else []) ++
      (if e.mData.isSome then [AllocId.dataBuf i] else []))
    ++ [AllocId.entriesList]

/-- The exit dispatch of line 477 plus the exit frees:
`dispatch(CHIP_NO_ERROR, &service, &ipAddress)` — always a success dispatch
carrying the record and one address. -/
def finishResolve (svc : ServiceRec) (allocs : List AllocId) : ResolveOutput :=
  ⟨[⟨CHIP_ERROR.NO_ERROR, some svc, 1⟩], allocs, freesFor svc⟩

/-- State threaded through the TXT marshalling loop: the `TextEntry[size]`
array contents, `service.mTextEntrySize`, the index of the next checked
(`new (std::nothrow)`) allocation for the oracle, and the allocations made so
far. -/
structure TxtLoopState where
  entries : List MTextEntry
  textEntrySize : Nat
  allocCtr : Nat
  allocs : List AllocId
deriving DecidableEq

/-- The `for` loop of lines 440-473 over the TXT entries.  Iteration `i`:
`entries[i].mKey = strdup(key)` (modelled as always succeeding — the code
never checks its result); if data is present, `new (std::nothrow) uint8_t[n]`
consults the oracle and on failure the code jumps to `exit` (the returned
state is the loop state at that point); at the end of the iteration
`service.mTextEntrySize = size` (line 472). -/
def resolveTxtLoop (oracle : Nat → Bool) (size : Nat) :
    List TxtInputEntry → Nat → TxtLoopState → TxtLoopState
  | [], _, st => st
  | e :: rest, i, st =>
    let st1 : TxtLoopState :=
      { st with entries := st.entries.set i ⟨some e.key, none⟩,
                allocs := st.allocs ++ [AllocId.keyBuf i] }
    match e.data with
    | some bytes =>
      if oracle st1.allocCtr then
        resolveTxtLoop oracle size rest (i + 1)
          { st1 with entries := st1.entries.set i ⟨some e.key, some bytes⟩,
                     allocCtr := st1.allocCtr + 1,
                     allocs := st1.allocs ++ [AllocId.dataBuf i],
                     textEntrySize := size }
      else { st1 with allocCtr := st1.allocCtr + 1 }
    | none =>
      resolveTxtLoop oracle size rest (i + 1) { st1 with textEntrySize := size }

/-- Model of `HandleResolve` (lines 386-492).  Here `oracle n` is the success of the `n`-th
checked allocation (`new (std::nothrow)`): index 0 is the `TextEntry[size]`
list, later indices the data buffers in order.  Follows the source's check
order: null callback → null address / zero port → instance-name length →
wire-type length → `CanCastTo<uint16_t>(port)` → address parse →
`extractProtocol` → TXT marshalling → exit dispatch and frees. -/
def HandleResolve (lim : Limits) (oracle : Nat → Bool) (input : ResolveInput) : ResolveOutput :=
  if input.callbackHandle = 0 then ⟨[], [], []⟩
  else if input.addressNull = true ∨ input.port = 0 then errOut CHIP_ERROR.UNKNOWN_RESOURCE_ID
  else if lim.instanceNameMax < input.instanceName.length then errOut CHIP_ERROR.INVALID_ARGUMENT
  else if lim.typeAndProtocolMax < input.serviceType.length then errOut CHIP_ERROR.INVALID_ARGUMENT
  else if ¬(0 ≤ input.port ∧ input.port ≤ 65535) then errOut CHIP_ERROR.INVALID_ARGUMENT
  else if input.addressParses = false then errOut CHIP_ERROR.INVALID_ARGUMENT
  else
    match extractProtocol lim.typeBufSize input.serviceType with
    | Except.error _ => errOut CHIP_ERROR.INVALID_ARGUMENT
    | Except.ok ex =>
      let base : ServiceRec :=
        ⟨input.instanceName, input.hostName, ex.serviceName, ex.protocol, input.port, 0, none⟩
      match input.textEntries with
      | none => finishResolve base []
      | some inputs =>
        let size := inputs.length
        if oracle 0 = false then finishResolve base []
        else
          let stF := resolveTxtLoop oracle size inputs 0
            ⟨List.replicate size ⟨none, none⟩, 0, 1, [AllocId.entriesList]⟩
          finishResolve
            { base with mTextEntries := some stF.entries, mTextEntrySize := stF.textEntrySize }
            stF.allocs

/-- One record of the array built by `HandleBrowse`. -/
structure BrowseRec where
  mName : List Char
  mType : List Char
  mProtocol : DnssdServiceProtocol
deriving DecidableEq

/-- One invocation of the browse callback through the `dispatch` lambda of
lines 498-502: error code, the `DnssdService *` array (`none` = nullptr, the
default for error dispatches), `servicesSize`, and the always-true
`finalBrowse` flag. -/
structure BrowseDispatch where
  error : CHIP_ERROR
  services : Option (List BrowseRec)
  servicesSize : Nat
  finalBrowse : Bool
deriving DecidableEq

/-- The `for` loop of lines 509-518: validates each instance name's length in
order, runs `extractProtocol` on the shared wire type for each entry, and
returns the first failure (which the caller turns into a single error
dispatch) or the fully built record list. -/
def browseLoop (lim : Limits) (serviceType : List Char) :
    List (List Char) → Except CHIP_ERROR (List BrowseRec)
  | [] => Except.ok []
  | n :: rest =>
    if lim.instanceNameMax < n.length then Except.error CHIP_ERROR.INVALID_ARGUMENT
    else
      match extractProtocol lim.typeBufSize serviceType with
      | Except.error _ => Except.error CHIP_ERROR.INVALID_ARGUMENT
      | Except.ok ex =>
        (browseLoop lim serviceType rest).map (fun l => ⟨n, ex.serviceName, ex.protocol⟩ :: l)

/-- Model of `HandleBrowse` (lines 494-522): nothing happens on a zero callback handle;
otherwise exactly one dispatch — an error dispatch with a null service array
on the first validation failure, or a success dispatch with the whole batch
and `finalBrowse = true`. -/
def HandleBrowse (lim : Limits) (instanceNames : List (List Char)) (serviceType : List Char)
    (callbackHandle : Int) : List BrowseDispatch :=
  if callbackHandle = 0 then []
  else
    match browseLoop lim serviceType instanceNames with
    | Except.error e => [⟨e, none, 0, true⟩]
    | Except.ok recs => [⟨CHIP_ERROR.NO_ERROR, some recs, instanceNames.length, true⟩]

/-! Supporting lemmas about the C-string primitives. -/

theorem strrchrIdx_append_of_some (c : Char) (l₁ l₂ : List Char) (i : Nat)
    (h : strrchrIdx c l₂ = some i) : strrchrIdx c (l₁ ++ l₂) = some (l₁.length + i) := by
  induction l₁ with
  | nil => simpa using h
  | cons x t ih =>
    rw [List.cons_append]
    simp only [strrchrIdx, ih]
    simp only [List.length_cons, Option.some.injEq]
    omega

theorem strrchrIdx_eq_none (c : Char) (l : List Char) (h : c ∉ l) : strrchrIdx c l = none := by
  induction l with
  | nil => rfl
  | cons x t ih =>
    have hx : ¬(x = c) := by rintro rfl; exact h (List.mem_cons_self _ _)
    have ht : c ∉ t := fun hm => h (List.mem_cons_of_mem _ hm)
    simp [strrchrIdx, ih ht, hx]

theorem strrchrIdx_last_dot (base tail : List Char) (h : '.' ∉ tail) :
    strrchrIdx '.' (base ++ '.' :: tail) = some base.length := by
  have h1 : strrchrIdx '.' ('.' :: tail) = some 0 := by
    simp [strrchrIdx, strrchrIdx_eq_none '.' tail h]
  simpa using strrchrIdx_append_of_some '.' base ('.' :: tail) 0 h1

theorem isPrefixB_self_append (p r : List Char) : isPrefixB p (p ++ r) = true := by
  induction p with
  | nil => rfl
  | cons a t ih => simp [isPrefixB, ih]

theorem isPrefixB_eq_true_iff (p s : List Char) : isPrefixB p s = true ↔ ∃ r, s = p ++ r := by
  induction p generalizing s with
  | nil => simp [isPrefixB]
  | cons a t ih =>
    cases s with
    | nil => simp [isPrefixB]
    | cons b u =>
      simp only [isPrefixB, Bool.and_eq_true, beq_iff_eq, ih, List.cons_append, List.cons.injEq]
      constructor
      · rintro ⟨rfl, r, rfl⟩; exact ⟨r, rfl, rfl⟩
      · rintro ⟨r, rfl, rfl⟩; exact ⟨rfl, r, rfl⟩

theorem strstrB_dot_head (p s : List Char) (h : '.' ∉ s) : strstrB ('.' :: p) s = false := by
  induction s with
  | nil => rfl
  | cons x t ih =>
    have hx : ¬('.' = x) := by rintro rfl; exact h (List.mem_cons_self _ _)
    have ht : '.' ∉ t := fun hm => h (List.mem_cons_of_mem _ hm)
    simp [strstrB, isPrefixB, ih ht, hx]

theorem strstrB_dot_cons (p tail : List Char) (h : '.' ∉ tail) :
    strstrB ('.' :: p) ('.' :: tail) = isPrefixB p tail := by
  simp [strstrB, strstrB_dot_head p tail h, isPrefixB]

theorem extractProtocol_split (N : Nat) (base tail : List Char) (h : '.' ∉ tail)
    (hfit : base.length + 1 ≤ N) :
    extractProtocol N (base ++ '.' :: tail) =
      (if strstrB kProtocolTcp ('.' :: tail) then
        Except.ok ⟨base, DnssdServiceProtocol.tcp⟩
       else if strstrB kProtocolUdp ('.' :: tail) then
        Except.ok ⟨base, DnssdServiceProtocol.udp⟩
       else Except.error CHIP_ERROR.INVALID_ARGUMENT) := by
  unfold extractProtocol
  rw [strrchrIdx_last_dot base tail h]
  simp only [hfit, if_true, List.take_left, List.drop_left]

/-- C2: for protocol ∈ {tcp, udp}, when the base name (plus terminator) fits
the decoder's output buffer, `extractProtocol` inverts `GetFullType`. -/
theorem roundTrip_extract_getFullType (N : Nat) (type : List Char)
    (protocol : DnssdServiceProtocol)
    (hp : protocol = DnssdServiceProtocol.tcp ∨ protocol = DnssdServiceProtocol.udp)
    (hfit : type.length + 1 ≤ N) :
    extractProtocol N (GetFullType type protocol) = Except.ok ⟨type, protocol⟩ := by
  rcases hp with rfl | rfl
  · have hform : GetFullType type DnssdServiceProtocol.tcp =
        type ++ '.' :: ['_', 't', 'c', 'p'] := by
      simp [GetFullType, kProtocolTcp]
    rw [hform, extractProtocol_split N type _ (by decide) hfit]
    rfl
  · have hform : GetFullType type DnssdServiceProtocol.udp =
        type ++ '.' :: ['_', 'u', 'd', 'p'] := by
      simp [GetFullType, kProtocolUdp]
    rw [hform, extractProtocol_split N type _ (by decide) hfit]
    rfl

/-- Witness for C2 at a concrete input. -/
theorem roundTrip_extract_getFullType_witness :
    extractProtocol 33 (GetFullType ['_', 'm', 'a', 't', 't', 'e', 'r'] DnssdServiceProtocol.udp) =
      Except.ok ⟨['_', 'm', 'a', 't', 't', 'e', 'r'], DnssdServiceProtocol.udp⟩ :=
  roundTrip_extract_getFullType 33 ['_', 'm', 'a', 't', 't', 'e', 'r']
    DnssdServiceProtocol.udp (Or.inr rfl) (by decide)

/-- C6 counterexample: the claim says decoding succeeds only when the suffix
after the last `.` is exactly `._tcp` or `._udp` and that any other suffix
fails with InvalidArgument.  But `"_matter._tcpX"` — whose suffix from the
last `.` (index 7) is `"._tcpX"`, neither `"._tcp"` nor `"._udp"` — is
accepted, because the code uses `strstr` on the tail rather than an exact
comparison. -/
theorem extract_exact_suffix_counterexample :
    strrchrIdx '.' ['_', 'm', 'a', 't', 't', 'e', 'r', '.', '_', 't', 'c', 'p', 'X'] = some 7 ∧
    ['_', 'm', 'a', 't', 't', 'e', 'r', '.', '_', 't', 'c', 'p', 'X'].drop 7 ≠ kProtocolTcp ∧
    ['_', 'm', 'a', 't', 't', 'e', 'r', '.', '_', 't', 'c', 'p', 'X'].drop 7 ≠ kProtocolUdp ∧
    extractProtocol 33 ['_', 'm', 'a', 't', 't', 'e', 'r', '.', '_', 't', 'c', 'p', 'X'] =
      Except.ok ⟨['_', 'm', 'a', 't', 't', 'e', 'r'], DnssdServiceProtocol.tcp⟩ := by
  decide

/-- C6 as amended: the function `extractProtocol` splits at the last `.`; it succeeds when
the text after that dot BEGINS with `_tcp` (protocol tcp) or `_udp` (protocol
udp), not only when the suffix is exactly `._tcp`/`._udp`; it fails with
InvalidArgument when the input has no `.`, when the tail begins with neither
`_tcp` nor `_udp`, and when the base name does not fit the output buffer; in
particular `"_matter._xyz"` and `"_matter"` both fail with InvalidArgument. -/
theorem extract_suffix_amended :
    (∀ (N : Nat) (s : List Char), '.' ∉ s →
      extractProtocol N s = Except.error CHIP_ERROR.INVALID_ARGUMENT) ∧
    (∀ (N : Nat) (base tail : List Char), '.' ∉ tail → base.length + 1 ≤ N →
      isPrefixB ['_', 't', 'c', 'p'] tail = true →
      extractProtocol N (base ++ '.' :: tail) =
        Except.ok ⟨base, DnssdServiceProtocol.tcp⟩) ∧
    (∀ (N : Nat) (base tail : List Char), '.' ∉ tail → base.length + 1 ≤ N →
      isPrefixB ['_', 'u', 'd', 'p'] tail = true →
      extractProtocol N (base ++ '.' :: tail) =
        Except.ok ⟨base, DnssdServiceProtocol.udp⟩) ∧
    (∀ (N : Nat) (base tail : List Char), '.' ∉ tail → base.length + 1 ≤ N →
      isPrefixB ['_', 't', 'c', 'p'] tail = false →
      isPrefixB ['_', 'u', 'd', 'p'] tail = false →
      extractProtocol N (base ++ '.' :: tail) = Except.error CHIP_ERROR.INVALID_ARGUMENT) ∧
    (∀ (N : Nat) (base tail : List Char), '.' ∉ tail → N < base.length + 1 →
      extractProtocol N (base ++ '.' :: tail) = Except.error CHIP_ERROR.INVALID_ARGUMENT) ∧
    extractProtocol 33 ['_', 'm', 'a', 't', 't', 'e', 'r', '.', '_', 'x', 'y', 'z'] =
      Except.error CHIP_ERROR.INVALID_ARGUMENT ∧
    extractProtocol 33 ['_', 'm', 'a', 't', 't', 'e', 'r'] =
      Except.error CHIP_ERROR.INVALID_ARGUMENT := by
  refine ⟨?_, ?_, ?_, ?_, ?_, by decide, by decide⟩
  · intro N s hs
    unfold extractProtocol
    rw [strrchrIdx_eq_none '.' s hs]
  · intro N base tail hdot hfit htcp
    rw [extractProtocol_split N base tail hdot hfit]
    have : strstrB kProtocolTcp ('.' :: tail) = true := by
      rw [show kProtocolTcp = '.' :: ['_', 't', 'c', 'p'] from rfl,
          strstrB_dot_cons _ tail hdot, htcp]
    rw [this, if_pos rfl]
  · intro N base tail hdot hfit hudp
    rw [extractProtocol_split N base tail hdot hfit]
    rcases (isPrefixB_eq_true_iff _ _).mp hudp with ⟨r, rfl⟩
    have htcp : strstrB kProtocolTcp ('.' :: (['_', 'u', 'd', 'p'] ++ r)) = false := by
      rw [show kProtocolTcp = '.' :: ['_', 't', 'c', 'p'] from rfl,
          strstrB_dot_cons _ _ hdot]
      simp [isPrefixB]
    have hu : strstrB kProtocolUdp ('.' :: (['_', 'u', 'd', 'p'] ++ r)) = true := by
      rw [show kProtocolUdp = '.' :: ['_', 'u', 'd', 'p'] from rfl,
          strstrB_dot_cons _ _ hdot]
      exact isPrefixB_self_append ['_', 'u', 'd', 'p'] r
    rw [htcp, hu]
    simp
  · intro N base tail hdot hfit htcp hudp
    rw [extractProtocol_split N base tail hdot hfit]
    have h1 : strstrB kProtocolTcp ('.' :: tail) = false := by
      rw [show kProtocolTcp = '.' :: ['_', 't', 'c', 'p'] from rfl,
          strstrB_dot_cons _ tail hdot, htcp]
    have h2 : strstrB kProtocolUdp ('.' :: tail) = false := by
      rw [show kProtocolUdp = '.' :: ['_', 'u', 'd', 'p'] from rfl,
          strstrB_dot_cons _ tail hdot, hudp]
    rw [h1, h2]
    rfl
  · intro N base tail hdot hover
    unfold extractProtocol
    rw [strrchrIdx_last_dot base tail hdot]
    have hn : ¬(base.length + 1 ≤ N) := by omega
    simp [hn]

/-- Witness for the amended C6 at concrete inputs. -/
theorem extract_suffix_amended_witness :
    extractProtocol 33 (['_', 'm'] ++ '.' :: ['_', 't', 'c', 'p', 'X']) =
      Except.ok ⟨['_', 'm'], DnssdServiceProtocol.tcp⟩ :=
  extract_suffix_amended.2.1 33 ['_', 'm'] ['_', 't', 'c', 'p', 'X']
    (by decide) (by decide) (by decide)

/-- C3 counterexample: the claim says
`encodeFullTypeWithSubtype("_matter._sub.foo", tcp) == "foo,_matter._tcp"`,
but the code computes `substr(pos + 6) + "," + substr(0, pos)` on the full
type `"_matter._sub.foo._tcp"`, giving `"foo._tcp,_matter"` — the protocol
suffix stays attached to the part after the marker, not to the part before
the comma. -/
theorem fullTypeWithSubTypes_counterexample :
    GetFullTypeWithSubTypes
        ['_', 'm', 'a', 't', 't', 'e', 'r', '.', '_', 's', 'u', 'b', '.', 'f', 'o', 'o']
        DnssdServiceProtocol.tcp =
      ['f', 'o', 'o', '.', '_', 't', 'c', 'p', ',', '_', 'm', 'a', 't', 't', 'e', 'r'] ∧
    GetFullTypeWithSubTypes
        ['_', 'm', 'a', 't', 't', 'e', 'r', '.', '_', 's', 'u', 'b', '.', 'f', 'o', 'o']
        DnssdServiceProtocol.tcp ≠
      ['f', 'o', 'o', ',', '_', 'm', 'a', 't', 't', 'e', 'r', '.', '_', 't', 'c', 'p'] := by
  decide

/-- C3 as amended: on an input containing a `._sub.` marker the code returns
`"<part-after-marker>._tcp|._udp,<part-before-marker>"` (the protocol suffix
is appended first and travels with the part after the marker), concretely
`encodeFullTypeWithSubtype("_matter._sub.foo", tcp) = "foo._tcp,_matter"`;
when `"._sub."` does not occur in the encoded full type the result is
identical to `encodeFullType`, e.g. `"_matter"` with tcp gives
`"_matter._tcp"`. -/
theorem fullTypeWithSubTypes_amended :
    GetFullTypeWithSubTypes
        ['_', 'm', 'a', 't', 't', 'e', 'r', '.', '_', 's', 'u', 'b', '.', 'f', 'o', 'o']
        DnssdServiceProtocol.tcp =
      ['f', 'o', 'o', '.', '_', 't', 'c', 'p', ',', '_', 'm', 'a', 't', 't', 'e', 'r'] ∧
    (∀ (type : List Char) (protocol : DnssdServiceProtocol),
      strFind subtypeDelimiter (GetFullType type protocol) = none →
      GetFullTypeWithSubTypes type protocol = GetFullType type protocol) ∧
    GetFullTypeWithSubTypes ['_', 'm', 'a', 't', 't', 'e', 'r'] DnssdServiceProtocol.tcp =
      ['_', 'm', 'a', 't', 't', 'e', 'r', '.', '_', 't', 'c', 'p'] := by
  refine ⟨by decide, ?_, by decide⟩
  intro type protocol hnone
  simp only [GetFullTypeWithSubTypes, hnone]

/-- Witness for the amended C3's universally quantified part. -/
theorem fullTypeWithSubTypes_amended_witness :
    GetFullTypeWithSubTypes ['_', 'a'] DnssdServiceProtocol.udp =
      GetFullType ['_', 'a'] DnssdServiceProtocol.udp :=
  fullTypeWithSubTypes_amended.2.1 ['_', 'a'] DnssdServiceProtocol.udp (by decide)

/-- C1: every resolve completion with a non-zero callback handle produces
exactly one callback dispatch — a success dispatch carrying a built record and
exactly one address, or a failure dispatch with no record and no address;
never zero and never more than one. -/
theorem handleResolve_dispatches_once (lim : Limits) (oracle : Nat → Bool)
    (input : ResolveInput) (h : input.callbackHandle ≠ 0) :
    ∃ d, (HandleResolve lim oracle input).dispatches = [d] ∧
      ((d.error = CHIP_ERROR.NO_ERROR ∧ d.service.isSome = true ∧ d.addrCount = 1) ∨
       (d.error ≠ CHIP_ERROR.NO_ERROR ∧ d.service = none ∧ d.addrCount = 0)) := by
  unfold HandleResolve errOut finishResolve
  rw [if_neg h]
  repeat' split
  all_goals
    first
      | exact ⟨_, rfl, Or.inr ⟨by decide, rfl, rfl⟩⟩
      | exact ⟨_, rfl, Or.inl ⟨rfl, rfl, rfl⟩⟩

/-- Witness for C1 at a concrete resolve completion. -/
theorem handleResolve_dispatches_once_witness :
    (HandleResolve ⟨33, 40, 33⟩ (fun _ => true)
        ⟨['n'], ['_', 'a', '.', '_', 't', 'c', 'p'], ['h'], false, true, 5540,
         some [⟨['k'], some [7]⟩], 1⟩).dispatches.length = 1 := by
  obtain ⟨d, hd, _⟩ := handleResolve_dispatches_once ⟨33, 40, 33⟩ (fun _ => true)
    ⟨['n'], ['_', 'a', '.', '_', 't', 'c', 'p'], ['h'], false, true, 5540,
     some [⟨['k'], some [7]⟩], 1⟩ (by decide)
  rw [hd]
  rfl

/-- Helper for C7: the browse marshalling loop rejects the whole batch as soon
as any instance name is over-length. -/
theorem browseLoop_error_of_bad (lim : Limits) (stype : List Char) (names : List (List Char))
    (bad : List Char) (hmem : bad ∈ names) (hlen : lim.instanceNameMax < bad.length) :
    browseLoop lim stype names = Except.error CHIP_ERROR.INVALID_ARGUMENT := by
  induction names with
  | nil => cases hmem
  | cons n rest ih =>
    rcases List.mem_cons.mp hmem with rfl | hm
    · simp [browseLoop, hlen]
    · unfold browseLoop
      split
      · rfl
      · cases hex : extractProtocol lim.typeBufSize stype with
        | error e => rfl
        | ok ex => rw [ih hm]; rfl

/-- C7: a browse batch containing an over-length instance name — in
particular a valid entry followed by an over-length one — yields exactly one
dispatch for the whole batch: an error dispatch carrying InvalidArgument and
a null record array; no valid entries are partially delivered. -/
theorem handleBrowse_aborts_batch (lim : Limits) (names : List (List Char))
    (stype : List Char) (cb : Int) (hcb : cb ≠ 0) (bad : List Char)
    (hmem : bad ∈ names) (hlen : lim.instanceNameMax < bad.length) :
    HandleBrowse lim names stype cb = [⟨CHIP_ERROR.INVALID_ARGUMENT, none, 0, true⟩] := by
  unfold HandleBrowse
  rw [if_neg hcb, browseLoop_error_of_bad lim stype names bad hmem hlen]

/-- Witness for C7: a batch with one valid name followed by a 40-character
name (over the 33-character maximum) is rejected whole. -/
theorem handleBrowse_aborts_batch_witness :
    HandleBrowse ⟨33, 40, 33⟩ [['o', 'k'], List.replicate 40 'x']
        ['_', 'a', '.', '_', 't', 'c', 'p'] 1 =
      [⟨CHIP_ERROR.INVALID_ARGUMENT, none, 0, true⟩] :=
  handleBrowse_aborts_batch ⟨33, 40, 33⟩ [['o', 'k'], List.replicate 40 'x']
    ['_', 'a', '.', '_', 't', 'c', 'p'] 1 (by decide) (List.replicate 40 'x')
    (by decide) (by decide)

/-- C8: calling `StopBrowse(0)` fails with InvalidArgument and touches no session;
with a non-zero identifier (backend bound, JNI env available) the session is
destroyed exactly once, unconditionally — also when the backend stop call
throws, in which case the result is the backend-fault status
`CHIP_JNI_ERROR_EXCEPTION_THROWN`. -/
theorem stopBrowse_destroys_once (st : BindState) (envOk backendThrows : Bool) :
    ChipDnssdStopBrowse st true envOk backendThrows = (CHIP_ERROR.INVALID_ARGUMENT, []) ∧
    (st.browserBound = true → st.stopBrowseMethod = true → envOk = true →
      ((ChipDnssdStopBrowse st false envOk backendThrows).2.count Action.sessionDestroy = 1 ∧
       (backendThrows = true →
         ChipDnssdStopBrowse st false envOk backendThrows =
           (CHIP_ERROR.JNI_EXCEPTION_THROWN,
            [Action.backendStopBrowse true, Action.sessionDestroy])) ∧
       (backendThrows = false →
         ChipDnssdStopBrowse st false envOk backendThrows =
           (CHIP_ERROR.NO_ERROR,
            [Action.backendStopBrowse true, Action.sessionDestroy])))) := by
  refine ⟨rfl, ?_⟩
  intro hb hm he
  subst he
  cases backendThrows <;> simp [ChipDnssdStopBrowse, hb, hm, List.count_cons]

/-- Witness for C8 at a fully bound state. -/
theorem stopBrowse_destroys_once_witness :
    (ChipDnssdStopBrowse ⟨true, true, true, true, true, true, true, true⟩
        false true true).2.count Action.sessionDestroy = 1 :=
  ((stopBrowse_destroys_once ⟨true, true, true, true, true, true, true, true⟩
      true true).2 rfl rfl rfl).1

/-- C4 counterexample: the claim says every backend-crossing operation
releases the shared-state lock before the backend call and that the backend
is never invoked while the lock is held.  But `ChipDnssdBrowse` (line 198)
invokes the backend browse method with no `DeviceLayer::StackUnlock` in
scope: with everything bound and non-null arguments, its trace contains a
backend call made while the lock is held. -/
theorem browse_lock_counterexample :
    Action.backendBrowse true ∈
      (ChipDnssdBrowse ⟨true, true, true, true, true, true, true, true⟩
        false false true false true).2 ∧
    backendLockHeld (Action.backendBrowse true) = some true := by
  decide

/-- C4 as amended: Resolve, PublishService and RemoveServices wrap their
backend call-outs in `DeviceLayer::StackUnlock` and so never invoke the
backend with the lock held; Browse and StopBrowse do not — every backend
call-out they make happens while the lock is held. -/
theorem backend_lock_discipline_amended :
    (∀ (st : BindState) (a b c : Bool), ∀ act ∈ (ChipDnssdResolve st a b c).2,
      backendLockHeld act ≠ some true) ∧
    (∀ (st : BindState) (a b c d e : Bool),
      ∀ act ∈ (ChipDnssdPublishService st a b c d e).2, backendLockHeld act ≠ some true) ∧
    (∀ (st : BindState) (a : Bool), ∀ act ∈ (ChipDnssdRemoveServices st a).2,
      backendLockHeld act ≠ some true) ∧
    (∀ (st : BindState) (a b c d e : Bool), ∀ act ∈ (ChipDnssdBrowse st a b c d e).2,
      backendLockHeld act ≠ some false) ∧
    (∀ (st : BindState) (a b c : Bool), ∀ act ∈ (ChipDnssdStopBrowse st a b c).2,
      backendLockHeld act ≠ some false) := by
  refine ⟨?_, ?_, ?_, ?_, ?_⟩
  · intro st a b c act hact
    unfold ChipDnssdResolve at hact
    repeat' split at hact
    all_goals simp_all [backendLockHeld]
  · intro st a b c d e act hact
    unfold ChipDnssdPublishService at hact
    repeat' split at hact
    all_goals simp_all [backendLockHeld]
  · intro st a act hact
    unfold ChipDnssdRemoveServices at hact
    repeat' split at hact
    all_goals simp_all [backendLockHeld]
  · intro st a b c d e act hact
    unfold ChipDnssdBrowse at hact
    repeat' split at hact
    all_goals simp_all [backendLockHeld]
    all_goals rcases hact with rfl | rfl <;> decide
  · intro st a b c act hact
    unfold ChipDnssdStopBrowse at hact
    repeat' split at hact
    all_goals simp_all [backendLockHeld]
    all_goals rcases hact with rfl | rfl <;> decide

/-- Witness for the amended C4 at a concrete call. -/
theorem backend_lock_discipline_amended_witness :
    backendLockHeld (Action.backendResolve false) ≠ some true :=
  backend_lock_discipline_amended.1 ⟨true, true, true, true, true, true, true, true⟩
    false false false (Action.backendResolve false) (by decide)

/-- C9 counterexample: the claim says invoking any backend-requiring
operation while the backend is not bound fails with IncorrectState.  But
`ChipDnssdBrowse` with an unbound browser object (non-null arguments) fails
with InvalidArgument (line 189), not IncorrectState. -/
theorem unbound_backend_counterexample :
    ChipDnssdBrowse ⟨true, false, true, true, true, true, true, true⟩
        false false true false true = (CHIP_ERROR.INVALID_ARGUMENT, []) ∧
    CHIP_ERROR.INVALID_ARGUMENT ≠ CHIP_ERROR.INCORRECT_STATE := by
  decide

/-- C9 as amended: with the needed capability unbound, every operation
returns without any backend call or side effect (empty action trace), but
the status differs by operation: Resolve, PublishService and RemoveServices
fail with IncorrectState (as does Browse when only the dispatcher callback
object is unbound, and Resolve likewise for the dispatcher), while Browse
and StopBrowse fail with InvalidArgument when the browser backend itself is
unbound. -/
theorem unbound_backend_amended :
    (∀ (st : BindState) (c : Bool), st.resolverBound = false ∨ st.resolveMethod = false →
      ChipDnssdResolve st false false c = (CHIP_ERROR.INCORRECT_STATE, [])) ∧
    (∀ (st : BindState) (c : Bool), st.resolverBound = true → st.resolveMethod = true →
      st.mdnsCallbackBound = false →
      ChipDnssdResolve st false false c = (CHIP_ERROR.INCORRECT_STATE, [])) ∧
    (∀ (st : BindState) (b c d e : Bool),
      st.resolverBound = false ∨ st.publishMethod = false →
      ChipDnssdPublishService st false b c d e = (CHIP_ERROR.INCORRECT_STATE, [])) ∧
    (∀ (st : BindState) (a : Bool),
      st.resolverBound = false ∨ st.removeServicesMethod = false →
      ChipDnssdRemoveServices st a = (CHIP_ERROR.INCORRECT_STATE, [])) ∧
    (∀ (st : BindState) (c d e : Bool), st.browserBound = false ∨ st.browseMethod = false →
      ChipDnssdBrowse st false false c d e = (CHIP_ERROR.INVALID_ARGUMENT, [])) ∧
    (∀ (st : BindState) (c d e : Bool), st.browserBound = true → st.browseMethod = true →
      st.mdnsCallbackBound = false →
      ChipDnssdBrowse st false false c d e = (CHIP_ERROR.INCORRECT_STATE, [])) ∧
    (∀ (st : BindState) (b c : Bool), st.browserBound = false ∨ st.stopBrowseMethod = false →
      ChipDnssdStopBrowse st false b c = (CHIP_ERROR.INVALID_ARGUMENT, [])) := by
  refine ⟨?_, ?_, ?_, ?_, ?_, ?_, ?_⟩
  · intro st c h
    rcases h with h | h <;> simp [ChipDnssdResolve, h]
  · intro st c h1 h2 h3
    simp [ChipDnssdResolve, h1, h2, h3]
  · intro st b c d e h
    rcases h with h | h <;> simp [ChipDnssdPublishService, h]
  · intro st a h
    rcases h with h | h <;> simp [ChipDnssdRemoveServices, h]
  · intro st c d e h
    rcases h with h | h <;> simp [ChipDnssdBrowse, h]
  · intro st c d e h1 h2 h3
    simp [ChipDnssdBrowse, h1, h2, h3]
  · intro st b c h
    rcases h with h | h <;> simp [ChipDnssdStopBrowse, h]

/-- Witness for the amended C9 at a concrete unbound state. -/
theorem unbound_backend_amended_witness :
    ChipDnssdResolve ⟨false, true, true, true, true, true, true, true⟩ false false false =
      (CHIP_ERROR.INCORRECT_STATE, []) :=
  unbound_backend_amended.1 ⟨false, true, true, true, true, true, true, true⟩
    false (Or.inl rfl)

/-- C5 failing input, evaluated: a resolve result with one TXT entry whose
data-buffer allocation fails (the entry list allocation having succeeded).
The key of entry 0 has already been `strdup`-ed, but because
`service.mTextEntrySize` is only updated at the END of each loop iteration
(line 472), it is still 0 at the jump to `exit`, so the free loop releases
nothing and only the entry list itself is deleted: the key buffer is
allocated and never released — a leak, contradicting the claim that exactly
the allocated buffers are released on every path. -/
theorem resolve_txt_leak_at_first_entry :
    (HandleResolve ⟨33, 40, 33⟩ (fun n => n == 0)
        ⟨['n'], ['_', 'a', '.', '_', 't', 'c', 'p'], ['h'], false, true, 5540,
         some [⟨['k'], some [1, 2]⟩], 1⟩).allocs =
      [AllocId.entriesList, AllocId.keyBuf 0] ∧
    (HandleResolve ⟨33, 40, 33⟩ (fun n => n == 0)
        ⟨['n'], ['_', 'a', '.', '_', 't', 'c', 'p'], ['h'], false, true, 5540,
         some [⟨['k'], some [1, 2]⟩], 1⟩).frees = [AllocId.entriesList] ∧
    AllocId.keyBuf 0 ∈
      (HandleResolve ⟨33, 40, 33⟩ (fun n => n == 0)
        ⟨['n'], ['_', 'a', '.', '_', 't', 'c', 'p'], ['h'], false, true, 5540,
         some [⟨['k'], some [1, 2]⟩], 1⟩).allocs ∧
    AllocId.keyBuf 0 ∉
      (HandleResolve ⟨33, 40, 33⟩ (fun n => n == 0)
        ⟨['n'], ['_', 'a', '.', '_', 't', 'c', 'p'], ['h'], false, true, 5540,
         some [⟨['k'], some [1, 2]⟩], 1⟩).frees := by
  decide

/-- C10 counterexample: two TXT entries, both with data; the data allocation
of entry 1 fails (oracle allows slots 0 and 1, refuses slot 2 — indeed
`dataBuf 1` is never allocated).  The callback is still dispatched once with
success, but the record's TXT list is NOT truncated and NOT empty: because
line 472 already ran at the end of iteration 0, `mTextEntrySize` equals the
full count 2, with entry 1 carrying a key and no data. -/
theorem resolve_alloc_fail_counterexample :
    (HandleResolve ⟨33, 40, 33⟩ (fun n => n ≤ 1)
        ⟨['n'], ['_', 'a', '.', '_', 't', 'c', 'p'], ['h'], false, true, 5540,
         some [⟨['a'], some [1]⟩, ⟨['b'], some [2]⟩], 1⟩).dispatches =
      [⟨CHIP_ERROR.NO_ERROR,
        some ⟨['n'], ['h'], ['_', 'a'], DnssdServiceProtocol.tcp, 5540, 2,
          some [⟨some ['a'], some [1]⟩, ⟨some ['b'], none⟩]⟩, 1⟩] ∧
    (HandleResolve ⟨33, 40, 33⟩ (fun n => n ≤ 1)
        ⟨['n'], ['_', 'a', '.', '_', 't', 'c', 'p'], ['h'], false, true, 5540,
         some [⟨['a'], some [1]⟩, ⟨['b'], some [2]⟩], 1⟩).allocs =
      [AllocId.entriesList, AllocId.keyBuf 0, AllocId.dataBuf 0, AllocId.keyBuf 1] ∧
    ¬((2 : Nat) < 2 ∨ (2 : Nat) = 0) := by
  decide

/-- C10 as amended: once the validation checks pass, `HandleResolve`
dispatches exactly once with a success status for EVERY allocation oracle —
an allocation failure during TXT marshalling is never reported to the
callback (no OutOfMemory).  The TXT list of the dispatched record is empty
when the entry-list allocation (or the first entry's data allocation) fails,
but keeps the full entry count, with unpopulated tail entries, when a data
allocation fails at entry i ≥ 1. -/
theorem resolve_alloc_fail_amended :
    (∀ (lim : Limits) (oracle : Nat → Bool) (input : ResolveInput),
      input.callbackHandle ≠ 0 → input.addressNull = false → input.port ≠ 0 →
      input.instanceName.length ≤ lim.instanceNameMax →
      input.serviceType.length ≤ lim.typeAndProtocolMax →
      0 ≤ input.port → input.port ≤ 65535 → input.addressParses = true →
      (∃ ex, extractProtocol lim.typeBufSize input.serviceType = Except.ok ex) →
      ∃ svc, (HandleResolve lim oracle input).dispatches =
        [⟨CHIP_ERROR.NO_ERROR, some svc, 1⟩]) ∧
    (HandleResolve ⟨33, 40, 33⟩ (fun _ => false)
        ⟨['n'], ['_', 'a', '.', '_', 't', 'c', 'p'], ['h'], false, true, 5540,
         some [⟨['k'], some [1]⟩], 1⟩).dispatches =
      [⟨CHIP_ERROR.NO_ERROR,
        some ⟨['n'], ['h'], ['_', 'a'], DnssdServiceProtocol.tcp, 5540, 0, none⟩, 1⟩] ∧
    (HandleResolve ⟨33, 40, 33⟩ (fun n => n ≤ 1)
        ⟨['n'], ['_', 'a', '.', '_', 't', 'c', 'p'], ['h'], false, true, 5540,
         some [⟨['a'], some [1]⟩, ⟨['b'], some [2]⟩], 1⟩).dispatches =
      [⟨CHIP_ERROR.NO_ERROR,
        some ⟨['n'], ['h'], ['_', 'a'], DnssdServiceProtocol.tcp, 5540, 2,
          some [⟨some ['a'], some [1]⟩, ⟨some ['b'], none⟩]⟩, 1⟩] := by
  refine ⟨?_, by decide, by decide⟩
  intro lim oracle input h0 haddr hport hlen1 hlen2 hp1 hp2 hparse hex
  obtain ⟨ex, hex⟩ := hex
  unfold HandleResolve finishResolve
  rw [if_neg h0]
  repeat' split
  all_goals
    first
      | exact ⟨_, rfl⟩
      | (exfalso; omega)
      | simp_all

/-- Witness for the amended C10's universally quantified part. -/
theorem resolve_alloc_fail_amended_witness :
    ((HandleResolve ⟨33, 40, 33⟩ (fun _ => false)
        ⟨['n'], ['_', 'a', '.', '_', 't', 'c', 'p'], ['h'], false, true, 5540,
         some [⟨['k'], some [1]⟩], 1⟩).dispatches.map (fun d => d.error)) =
      [CHIP_ERROR.NO_ERROR] := by
  obtain ⟨svc, hd⟩ := resolve_alloc_fail_amended.1 ⟨33, 40, 33⟩ (fun _ => false)
    ⟨['n'], ['_', 'a', '.', '_', 't', 'c', 'p'], ['h'], false, true, 5540,
     some [⟨['k'], some [1]⟩], 1⟩ (by decide) rfl (by decide) (by decide) (by decide)
    (by decide) (by decide) rfl ⟨⟨['_', 'a'], DnssdServiceProtocol.tcp⟩, by decide⟩
  rw [hd]
  rfl

end DnssdImpl
